import Mathlib

/-!
# DSP-Module-Chorus: the plugin processor

A shallow embedding of `Source/PluginProcessor.h` and `Source/PluginProcessor.cpp`.

* Float and double values are rationals (`Value`): the processor only copies them, it
  does no arithmetic on them. NaN and the infinities are not represented.
* `juce::AudioProcessorValueTreeState`, `juce::ValueTree` and `juce::dsp::Chorus` are
  library classes outside the repository. The store is represented by its declared
  parameters, its state tree (holding the current value of every parameter) and its
  registered listeners; the chorus by the sequence of calls it has received.
* `const void* data, int sizeInBytes` is one byte sequence (`MemoryBlock`).
-/

namespace DSPModuleChorus

/-- A float or double value. -/
abbrev Value := ℚ

/-- The bytes of a `juce::MemoryBlock`, or of a `(data, sizeInBytes)` pair. -/
abbrev MemoryBlock := List Nat

/-- An audio buffer: one list of samples per channel. -/
abbrev AudioBuffer := List (List Value)

/-- The arguments of `juce::AudioParameterFloat (id, name, min, max, default)`. -/
structure AudioParameterFloat where
  paramID : String
  paramName : String
  minValue : Value
  maxValue : Value
  defaultValue : Value
  deriving DecidableEq

/-- `createParameterLayout` (PluginProcessor.cpp 41-58): five parameters are made and
pushed onto `params` in this order. -/
def createParameterLayout : List AudioParameterFloat :=
  let params : List AudioParameterFloat := []
  let pRate : AudioParameterFloat := ⟨"rate", "Rate", 0, 100, 0⟩
  let pDepth : AudioParameterFloat := ⟨"depth", "Depth", 0, 1, 0⟩
  let pDelay : AudioParameterFloat := ⟨"delay", "Delay", 1, 100, 1⟩
  let pFeedback : AudioParameterFloat := ⟨"feedback", "Feedback", -1, 1, 0⟩
  let pMix : AudioParameterFloat := ⟨"mix", "Mix", 0, 1, 0⟩
  let params := params ++ [pRate]
  let params := params ++ [pDepth]
  let params := params ++ [pDelay]
  let params := params ++ [pFeedback]
  let params := params ++ [pMix]
  params

/-- A `juce::ValueTree` as the store uses it: whether it is valid, and the value it
holds for each parameter ID. -/
structure ValueTree where
  isValid : Bool
  values : String → Value

/-- The parameter store `juce::AudioProcessorValueTreeState`: the declared parameters,
the public member `state`, and the IDs a listener is registered for. -/
structure AudioProcessorValueTreeState where
  valueTreeType : String
  parameters : List AudioParameterFloat
  state : ValueTree
  listeners : List String

namespace AudioProcessorValueTreeState

/-- The declaration of the parameter with this ID, if there is one. -/
def getParameter (ts : AudioProcessorValueTreeState) (paramID : String) :
    Option AudioParameterFloat :=
  ts.parameters.find? (fun q => decide (q.paramID = paramID))

/-- Construction from a layout: every parameter starts at its declared default. -/
def create (valueTreeType : String) (layout : List AudioParameterFloat) :
    AudioProcessorValueTreeState :=
  { valueTreeType := valueTreeType
    parameters := layout
    state :=
      { isValid := true
        values := fun paramID =>
          match layout.find? (fun q => decide (q.paramID = paramID)) with
          | some q => q.defaultValue
          | none => 0 }
    listeners := [] }

/-- The call `addParameterListener (paramID, this)`. -/
def addParameterListener (ts : AudioProcessorValueTreeState) (paramID : String) :
    AudioProcessorValueTreeState :=
  { ts with listeners := ts.listeners ++ [paramID] }

/-- The dereferenced `*getRawParameterValue (paramID)`: the current value of the
parameter. -/
def getRawParameterValue (ts : AudioProcessorValueTreeState) (paramID : String) : Value :=
  ts.state.values paramID

/-- The assignment `treeState.state = tree`. -/
def assignState (ts : AudioProcessorValueTreeState) (tree : ValueTree) :
    AudioProcessorValueTreeState :=
  { ts with state := tree }

/-- The store changes the parameter `paramID` to `newValue` (nothing when no such
parameter is declared). -/
def storeValue (ts : AudioProcessorValueTreeState) (paramID : String) (newValue : Value) :
    AudioProcessorValueTreeState :=
  match ts.getParameter paramID with
  | some _ =>
    { ts with state := { ts.state with values := Function.update ts.state.values paramID newValue } }
  | none => ts

end AudioProcessorValueTreeState

/-- The fields of `juce::dsp::ProcessSpec`; `numChannels` is `none` while it has not been
assigned. `maximumBlockSize` and `numChannels` are 32-bit unsigned. -/
structure ProcessSpec where
  sampleRate : Value
  maximumBlockSize : Nat
  numChannels : Option Nat
  deriving DecidableEq

/-- One call on the `juce::dsp::Chorus<float>` member. -/
inductive ChorusCall where
  | setRate (newRateHz : Value)
  | setDepth (newDepth : Value)
  | setCentreDelay (newDelayMs : Value)
  | setFeedback (newFeedback : Value)
  | setMix (newMix : Value)
  | prepare (spec : ProcessSpec)
  | reset
  | process (block : AudioBuffer)
  deriving DecidableEq

/-- The state of the chorus engine: the calls it has received, oldest first. -/
abbrev Chorus := List ChorusCall

namespace Chorus

def setRate (c : Chorus) (v : Value) : Chorus := c ++ [ChorusCall.setRate v]

def setDepth (c : Chorus) (v : Value) : Chorus := c ++ [ChorusCall.setDepth v]

def setCentreDelay (c : Chorus) (v : Value) : Chorus := c ++ [ChorusCall.setCentreDelay v]

def setFeedback (c : Chorus) (v : Value) : Chorus := c ++ [ChorusCall.setFeedback v]

def setMix (c : Chorus) (v : Value) : Chorus := c ++ [ChorusCall.setMix v]

def prepare (c : Chorus) (spec : ProcessSpec) : Chorus := c ++ [ChorusCall.prepare spec]

def reset (c : Chorus) : Chorus := c ++ [ChorusCall.reset]

def process (c : Chorus) (block : AudioBuffer) : Chorus := c ++ [ChorusCall.process block]

end Chorus

/-- The five settings of a chorus, each `none` until its setter has been called. -/
structure ChorusSettings where
  rate : Option Value
  depth : Option Value
  centreDelay : Option Value
  feedback : Option Value
  mix : Option Value
  deriving DecidableEq

/-- The effect of one call on the settings: a setter replaces its own setting. -/
def ChorusSettings.after (s : ChorusSettings) : ChorusCall → ChorusSettings
  | ChorusCall.setRate v => { s with rate := some v }
  | ChorusCall.setDepth v => { s with depth := some v }
  | ChorusCall.setCentreDelay v => { s with centreDelay := some v }
  | ChorusCall.setFeedback v => { s with feedback := some v }
  | ChorusCall.setMix v => { s with mix := some v }
  | ChorusCall.prepare _ => s
  | ChorusCall.reset => s
  | ChorusCall.process _ => s

/-- The settings in force after a sequence of calls: for each, the argument of the most
recent call of its setter. -/
def Chorus.settings (c : Chorus) : ChorusSettings :=
  c.foldl ChorusSettings.after ⟨none, none, none, none, none⟩

/-- The class `DSPModuleChorusAudioProcessor` (PluginProcessor.h 16-74). The five cached
fields carry the in-class initialisers of lines 63-67. -/
structure DSPModuleChorusAudioProcessor where
  totalNumInputChannels : Nat
  totalNumOutputChannels : Nat
  treeState : AudioProcessorValueTreeState
  chorus : Chorus
  rate : Value := 1
  depth : Value := 1
  delay : Value := 1
  feedback : Value := 1
  mix : Value := 1

namespace DSPModuleChorusAudioProcessor

/-- The constructor (PluginProcessor.cpp 13-30): stereo input and output buses, the store
built from `createParameterLayout`, a chorus that has received no call, and a listener
registered for each of the five IDs. -/
def create : DSPModuleChorusAudioProcessor :=
  let treeState := AudioProcessorValueTreeState.create "PARAMETERS" createParameterLayout
  let treeState := treeState.addParameterListener "rate"
  let treeState := treeState.addParameterListener "depth"
  let treeState := treeState.addParameterListener "delay"
  let treeState := treeState.addParameterListener "feedback"
  let treeState := treeState.addParameterListener "mix"
  { totalNumInputChannels := 2
    totalNumOutputChannels := 2
    treeState := treeState
    chorus := [] }

/-- `parameterChanged` (PluginProcessor.cpp 60-72): five independent tests on the ID. -/
def parameterChanged (p : DSPModuleChorusAudioProcessor) (parameterID : String)
    (newValue : Value) : DSPModuleChorusAudioProcessor :=
  let p := if parameterID = "rate" then { p with rate := newValue } else p
  let p := if parameterID = "depth" then { p with depth := newValue } else p
  let p := if parameterID = "delay" then { p with delay := newValue } else p
  let p := if parameterID = "feedback" then { p with feedback := newValue } else p
  let p := if parameterID = "mix" then { p with mix := newValue } else p
  p

/-- `prepareToPlay` (PluginProcessor.cpp 137-151). `spec.numChannels` is never assigned;
`samplesPerBlock` is converted to the unsigned 32-bit `maximumBlockSize`. -/
def prepareToPlay (p : DSPModuleChorusAudioProcessor) (sampleRate : Value)
    (samplesPerBlock : Int) : DSPModuleChorusAudioProcessor :=
  let spec : ProcessSpec :=
    { sampleRate := sampleRate
      maximumBlockSize := (samplesPerBlock % 2 ^ 32).toNat
      numChannels := none }
  let p := { p with rate := p.treeState.getRawParameterValue "rate" }
  let p := { p with depth := p.treeState.getRawParameterValue "depth" }
  let p := { p with delay := p.treeState.getRawParameterValue "delay" }
  let p := { p with feedback := p.treeState.getRawParameterValue "feedback" }
  let p := { p with mix := p.treeState.getRawParameterValue "mix" }
  let p := { p with chorus := p.chorus.prepare spec }
  let p := { p with chorus := p.chorus.reset }
  p

/-- The call `buffer.clear (i, 0, buffer.getNumSamples())`: every sample of channel `i`
becomes zero. -/
def clearChannel (buffer : AudioBuffer) (i : Nat) : AudioBuffer :=
  buffer.set i ((buffer.getD i []).map (fun _ => 0))

/-- The loop of PluginProcessor.cpp 191-192 over the output channels that have no
input. -/
def clearUnusedOutputs (p : DSPModuleChorusAudioProcessor) (buffer : AudioBuffer) :
    AudioBuffer :=
  (List.range' p.totalNumInputChannels
    (p.totalNumOutputChannels - p.totalNumInputChannels)).foldl clearChannel buffer

/-- `processBlock` (PluginProcessor.cpp 185-204). The samples the chorus writes back are
outside the model; the block handed to it is recorded in the call. -/
def processBlock (p : DSPModuleChorusAudioProcessor) (buffer : AudioBuffer) :
    DSPModuleChorusAudioProcessor :=
  let buffer := clearUnusedOutputs p buffer
  let p := { p with chorus := p.chorus.setRate p.rate }
  let p := { p with chorus := p.chorus.setDepth p.depth }
  let p := { p with chorus := p.chorus.setCentreDelay p.delay }
  let p := { p with chorus := p.chorus.setFeedback p.feedback }
  let p := { p with chorus := p.chorus.setMix p.mix }
  let block := buffer
  { p with chorus := p.chorus.process block }

/-- `getStateInformation` (PluginProcessor.cpp 219-223): the stream replaces the content
of `destData` by the encoding of `treeState.state`. -/
def getStateInformation (writeToStream : ValueTree → MemoryBlock)
    (p : DSPModuleChorusAudioProcessor) (_destData : MemoryBlock) : MemoryBlock :=
  writeToStream p.treeState.state

/-- `setStateInformation` (PluginProcessor.cpp 225-239). -/
def setStateInformation (readFromData : MemoryBlock → ValueTree)
    (p : DSPModuleChorusAudioProcessor) (data : MemoryBlock) :
    DSPModuleChorusAudioProcessor :=
  let tree := readFromData data
  if tree.isValid then
    let p := { p with treeState := p.treeState.assignState tree }
    let p := { p with rate := p.treeState.getRawParameterValue "rate" }
    let p := { p with depth := p.treeState.getRawParameterValue "depth" }
    let p := { p with delay := p.treeState.getRawParameterValue "delay" }
    let p := { p with feedback := p.treeState.getRawParameterValue "feedback" }
    let p := { p with mix := p.treeState.getRawParameterValue "mix" }
    p
  else p

/-- The cached value the processor holds under a parameter name, the one `processBlock`
passes to the setter of that parameter. -/
def cachedValue (p : DSPModuleChorusAudioProcessor) (paramID : String) : Option Value :=
  if paramID = "rate" then some p.rate
  else if paramID = "depth" then some p.depth
  else if paramID = "delay" then some p.delay
  else if paramID = "feedback" then some p.feedback
  else if paramID = "mix" then some p.mix
  else none

/-- The store changes the parameter `paramID` to `newValue` and notifies the listener
registered for that ID with the same name and value. -/
def storeChange (p : DSPModuleChorusAudioProcessor) (paramID : String) (newValue : Value) :
    DSPModuleChorusAudioProcessor :=
  match p.treeState.getParameter paramID with
  | none => p
  | some _ =>
    let p := { p with treeState := p.treeState.storeValue paramID newValue }
    if paramID ∈ p.treeState.listeners then p.parameterChanged paramID newValue else p

/-- Every cached value equals the current value the store holds for that parameter. -/
def Coherent (p : DSPModuleChorusAudioProcessor) : Prop :=
  p.rate = p.treeState.getRawParameterValue "rate"
  ∧ p.depth = p.treeState.getRawParameterValue "depth"
  ∧ p.delay = p.treeState.getRawParameterValue "delay"
  ∧ p.feedback = p.treeState.getRawParameterValue "feedback"
  ∧ p.mix = p.treeState.getRawParameterValue "mix"

/-- A listener is registered for each of the five parameter IDs. -/
def Listening (p : DSPModuleChorusAudioProcessor) : Prop :=
  "rate" ∈ p.treeState.listeners ∧ "depth" ∈ p.treeState.listeners
  ∧ "delay" ∈ p.treeState.listeners ∧ "feedback" ∈ p.treeState.listeners
  ∧ "mix" ∈ p.treeState.listeners

end DSPModuleChorusAudioProcessor

open DSPModuleChorusAudioProcessor

/-- The value `v` limited to `[lo, hi]`: `lo` below the range, `hi` above it. -/
def clampValue (lo hi v : Value) : Value :=
  if v < lo then lo else if hi < v then hi else v

/-- The value `v` lies in the range `createParameterLayout` declares for `paramID`. -/
def InDeclaredRange (paramID : String) (v : Value) : Prop :=
  ∃ q ∈ createParameterLayout, q.paramID = paramID ∧ q.minValue ≤ v ∧ v ≤ q.maxValue

instance (paramID : String) (v : Value) : Decidable (InDeclaredRange paramID v) := by
  unfold InDeclaredRange
  infer_instance

/-- The store holds, for every declared parameter, a value within its declared range. -/
def StoreInRange (ts : AudioProcessorValueTreeState) : Prop :=
  ∀ q ∈ createParameterLayout, InDeclaredRange q.paramID (ts.getRawParameterValue q.paramID)

/-- The argument of a setter call lies in the range declared for the parameter that
setter belongs to; the other calls carry no parameter value. -/
def ChorusCall.InRange : ChorusCall → Prop
  | ChorusCall.setRate v => InDeclaredRange "rate" v
  | ChorusCall.setDepth v => InDeclaredRange "depth" v
  | ChorusCall.setCentreDelay v => InDeclaredRange "delay" v
  | ChorusCall.setFeedback v => InDeclaredRange "feedback" v
  | ChorusCall.setMix v => InDeclaredRange "mix" v
  | ChorusCall.prepare _ => True
  | ChorusCall.reset => True
  | ChorusCall.process _ => True

/-- Every cached value lies in the range declared for its parameter. -/
def CacheInRange (p : DSPModuleChorusAudioProcessor) : Prop :=
  InDeclaredRange "rate" p.rate ∧ InDeclaredRange "depth" p.depth
  ∧ InDeclaredRange "delay" p.delay ∧ InDeclaredRange "feedback" p.feedback
  ∧ InDeclaredRange "mix" p.mix

/-- One step of the processor's life after construction. -/
inductive Step where
  | storeChange (paramID : String) (newValue : Value)
  | prepareToPlay (sampleRate : Value) (samplesPerBlock : Int)
  | setStateInformation (data : MemoryBlock)
  | processBlock (buffer : AudioBuffer)

/-- Whether a step reloads the cached values from the store: `prepareToPlay` always,
`setStateInformation` when the data decodes to a valid tree. -/
def Step.syncs (readFromData : MemoryBlock → ValueTree) : Step → Bool
  | Step.storeChange _ _ => false
  | Step.prepareToPlay _ _ => true
  | Step.setStateInformation data => (readFromData data).isValid
  | Step.processBlock _ => false

/-- The processor after one step. -/
def Step.apply (readFromData : MemoryBlock → ValueTree) (p : DSPModuleChorusAudioProcessor) :
    Step → DSPModuleChorusAudioProcessor
  | Step.storeChange paramID newValue => p.storeChange paramID newValue
  | Step.prepareToPlay sampleRate samplesPerBlock => p.prepareToPlay sampleRate samplesPerBlock
  | Step.setStateInformation data => p.setStateInformation readFromData data
  | Step.processBlock buffer => p.processBlock buffer

/-- The processor after a sequence of steps, applied from the left. -/
def runSteps (readFromData : MemoryBlock → ValueTree) (p : DSPModuleChorusAudioProcessor)
    (steps : List Step) : DSPModuleChorusAudioProcessor :=
  steps.foldl (Step.apply readFromData) p

/-- A decoder that yields the tree `t` for every input. -/
def decodeAs (t : ValueTree) : MemoryBlock → ValueTree := fun _ => t

/-- An encoder that writes no bytes. -/
def encodeEmpty : ValueTree → MemoryBlock := fun _ => []

/-- The invalid tree, as returned for data that cannot be decoded. -/
def invalidTree : ValueTree := { isValid := false, values := fun _ => 0 }

/-- C1: `createParameterLayout` declares exactly five parameters, in the order rate,
depth, delay, feedback, mix, with ranges and defaults rate [0, 100] / 0, depth [0, 1] / 0,
delay [1, 100] / 1, feedback [-1, 1] / 0, mix [0, 1] / 0; for each the lower bound is at
most the upper bound and the default lies within the range. -/
theorem createParameterLayout_table :
    createParameterLayout.map
        (fun q => (q.paramID, q.minValue, q.maxValue, q.defaultValue))
      = [("rate", 0, 100, 0), ("depth", 0, 1, 0), ("delay", 1, 100, 1),
         ("feedback", -1, 1, 0), ("mix", 0, 1, 0)]
    ∧ createParameterLayout.length = 5
    ∧ ∀ q ∈ createParameterLayout,
        q.minValue ≤ q.maxValue ∧ q.minValue ≤ q.defaultValue
          ∧ q.defaultValue ≤ q.maxValue := by
  refine ⟨rfl, rfl, ?_⟩
  intro q hq
  simp only [createParameterLayout, List.nil_append, List.cons_append, List.mem_cons,
    List.mem_singleton, List.mem_nil_iff, or_false] at hq
  rcases hq with h | h | h | h | h <;> subst h <;> norm_num

/-! ## Shared lemmas -/

theorem clampValue_eq_self_iff (lo hi v : Value) :
    clampValue lo hi v = v ↔ lo ≤ v ∧ v ≤ hi := by
  unfold clampValue
  constructor
  · intro hv
    split_ifs at hv with h1 h2
    · exact absurd hv (ne_of_gt h1)
    · exact absurd hv (ne_of_lt h2)
    · exact ⟨not_lt.mp h1, not_lt.mp h2⟩
  · rintro ⟨h1, h2⟩
    rw [if_neg (not_lt.mpr h1), if_neg (not_lt.mpr h2)]

theorem parameterChanged_eq (p : DSPModuleChorusAudioProcessor) (parameterID : String)
    (newValue : Value) :
    p.parameterChanged parameterID newValue
      = { p with
          rate := if parameterID = "rate" then newValue else p.rate
          depth := if parameterID = "depth" then newValue else p.depth
          delay := if parameterID = "delay" then newValue else p.delay
          feedback := if parameterID = "feedback" then newValue else p.feedback
          mix := if parameterID = "mix" then newValue else p.mix } := by
  unfold parameterChanged
  split_ifs <;> rfl

theorem mem_createParameterLayout (q : AudioParameterFloat) :
    q ∈ createParameterLayout ↔
      q = ⟨"rate", "Rate", 0, 100, 0⟩ ∨ q = ⟨"depth", "Depth", 0, 1, 0⟩
        ∨ q = ⟨"delay", "Delay", 1, 100, 1⟩ ∨ q = ⟨"feedback", "Feedback", -1, 1, 0⟩
        ∨ q = ⟨"mix", "Mix", 0, 1, 0⟩ := by
  simp only [createParameterLayout, List.nil_append, List.cons_append, List.mem_cons,
    List.mem_singleton, List.mem_nil_iff, or_false]

theorem settings_append_setters (c : Chorus) (r d c0 f m : Value) :
    Chorus.settings (c ++ [ChorusCall.setRate r, ChorusCall.setDepth d,
        ChorusCall.setCentreDelay c0, ChorusCall.setFeedback f, ChorusCall.setMix m])
      = ⟨some r, some d, some c0, some f, some m⟩ := by
  simp [Chorus.settings, List.foldl_append, ChorusSettings.after]

theorem processBlock_chorus (p : DSPModuleChorusAudioProcessor) (buffer : AudioBuffer) :
    (p.processBlock buffer).chorus
      = p.chorus ++ [ChorusCall.setRate p.rate, ChorusCall.setDepth p.depth,
          ChorusCall.setCentreDelay p.delay, ChorusCall.setFeedback p.feedback,
          ChorusCall.setMix p.mix, ChorusCall.process (clearUnusedOutputs p buffer)] := by
  simp [processBlock, Chorus.setRate, Chorus.setDepth, Chorus.setCentreDelay,
    Chorus.setFeedback, Chorus.setMix, Chorus.process, clearUnusedOutputs]

theorem prepareToPlay_eq (p : DSPModuleChorusAudioProcessor) (sampleRate : Value)
    (samplesPerBlock : Int) :
    (p.prepareToPlay sampleRate samplesPerBlock).chorus
      = p.chorus ++
          [ChorusCall.prepare ⟨sampleRate, (samplesPerBlock % 2 ^ 32).toNat, none⟩,
           ChorusCall.reset] := by
  simp [prepareToPlay, Chorus.prepare, Chorus.reset]

theorem prepareToPlay_coherent (p : DSPModuleChorusAudioProcessor) (sampleRate : Value)
    (samplesPerBlock : Int) : Coherent (p.prepareToPlay sampleRate samplesPerBlock) := by
  simp [Coherent, prepareToPlay]

theorem setStateInformation_coherent (readFromData : MemoryBlock → ValueTree)
    (p : DSPModuleChorusAudioProcessor) (data : MemoryBlock)
    (h : (readFromData data).isValid = true) :
    Coherent (p.setStateInformation readFromData data) := by
  simp [Coherent, setStateInformation, h]

theorem setStateInformation_invalid (readFromData : MemoryBlock → ValueTree)
    (p : DSPModuleChorusAudioProcessor) (data : MemoryBlock)
    (h : (readFromData data).isValid = false) :
    p.setStateInformation readFromData data = p := by
  simp [setStateInformation, h]

theorem storeValue_listeners (ts : AudioProcessorValueTreeState) (paramID : String)
    (newValue : Value) : (ts.storeValue paramID newValue).listeners = ts.listeners := by
  unfold AudioProcessorValueTreeState.storeValue
  cases ts.getParameter paramID <;> rfl

theorem storeValue_getRawParameterValue (ts : AudioProcessorValueTreeState)
    (paramID : String) (newValue : Value) (q : AudioParameterFloat)
    (h : ts.getParameter paramID = some q) (name : String) :
    (ts.storeValue paramID newValue).getRawParameterValue name
      = if paramID = name then newValue else ts.getRawParameterValue name := by
  simp only [AudioProcessorValueTreeState.storeValue, h,
    AudioProcessorValueTreeState.getRawParameterValue, Function.update_apply]
  by_cases e : name = paramID
  · rw [if_pos e, if_pos e.symm]
  · rw [if_neg e, if_neg (fun e2 => e e2.symm)]

theorem storeChange_listening (p : DSPModuleChorusAudioProcessor) (paramID : String)
    (newValue : Value) (h : Listening p) : Listening (p.storeChange paramID newValue) := by
  unfold storeChange
  cases hq : p.treeState.getParameter paramID with
  | none => exact h
  | some q =>
    simp only
    split_ifs
    · simpa [Listening, parameterChanged_eq, storeValue_listeners] using h
    · simpa [Listening, storeValue_listeners] using h

theorem storeChange_coherent (p : DSPModuleChorusAudioProcessor) (paramID : String)
    (newValue : Value) (hl : Listening p) (hc : Coherent p) :
    Coherent (p.storeChange paramID newValue) := by
  unfold storeChange
  cases hq : p.treeState.getParameter paramID with
  | none => exact hc
  | some q =>
    obtain ⟨l1, l2, l3, l4, l5⟩ := hl
    obtain ⟨c1, c2, c3, c4, c5⟩ := hc
    simp only [storeValue_listeners]
    by_cases hmem : paramID ∈ p.treeState.listeners
    · rw [if_pos hmem]
      simp only [Coherent, parameterChanged_eq, storeValue_getRawParameterValue _ _ _ q hq]
      refine ⟨?_, ?_, ?_, ?_, ?_⟩ <;> split_ifs <;> first | rfl | assumption
    · rw [if_neg hmem]
      have n1 : ¬ paramID = "rate" := fun e => hmem (e ▸ l1)
      have n2 : ¬ paramID = "depth" := fun e => hmem (e ▸ l2)
      have n3 : ¬ paramID = "delay" := fun e => hmem (e ▸ l3)
      have n4 : ¬ paramID = "feedback" := fun e => hmem (e ▸ l4)
      have n5 : ¬ paramID = "mix" := fun e => hmem (e ▸ l5)
      simp only [Coherent, storeValue_getRawParameterValue _ _ _ q hq, if_neg n1, if_neg n2,
        if_neg n3, if_neg n4, if_neg n5]
      exact ⟨c1, c2, c3, c4, c5⟩

theorem step_listening (readFromData : MemoryBlock → ValueTree)
    (p : DSPModuleChorusAudioProcessor) (s : Step) (h : Listening p) :
    Listening (s.apply readFromData p) := by
  cases s with
  | storeChange paramID newValue => exact storeChange_listening p paramID newValue h
  | prepareToPlay sampleRate samplesPerBlock => simpa [Step.apply, Listening, prepareToPlay] using h
  | setStateInformation data =>
    simp only [Step.apply, setStateInformation]
    split_ifs
    · simpa [Listening, AudioProcessorValueTreeState.assignState] using h
    · exact h
  | processBlock buffer => simpa [Step.apply, Listening, processBlock] using h

theorem step_coherent (readFromData : MemoryBlock → ValueTree)
    (p : DSPModuleChorusAudioProcessor) (s : Step) (hl : Listening p)
    (h : Coherent p ∨ s.syncs readFromData = true) :
    Coherent (s.apply readFromData p) := by
  cases s with
  | storeChange paramID newValue =>
    rcases h with h | h
    · exact storeChange_coherent p paramID newValue hl h
    · simp [Step.syncs] at h
  | prepareToPlay sampleRate samplesPerBlock =>
    exact prepareToPlay_coherent p sampleRate samplesPerBlock
  | setStateInformation data =>
    cases hv : (readFromData data).isValid with
    | true => exact setStateInformation_coherent readFromData p data hv
    | false =>
      rcases h with h | h
      · simp only [Step.apply]
        rw [setStateInformation_invalid readFromData p data hv]
        exact h
      · simp [Step.syncs, hv] at h
  | processBlock buffer =>
    rcases h with h | h
    · simpa [Step.apply, Coherent, processBlock] using h
    · simp [Step.syncs] at h

theorem runSteps_listening (readFromData : MemoryBlock → ValueTree) (steps : List Step) :
    ∀ p : DSPModuleChorusAudioProcessor, Listening p →
      Listening (runSteps readFromData p steps) := by
  induction steps with
  | nil => intro p h; exact h
  | cons s rest ih =>
    intro p h
    exact ih _ (step_listening readFromData p s h)

theorem runSteps_coherent (readFromData : MemoryBlock → ValueTree) (steps : List Step) :
    ∀ p : DSPModuleChorusAudioProcessor, Listening p →
      (Coherent p ∨ ∃ s ∈ steps, s.syncs readFromData = true) →
      Coherent (runSteps readFromData p steps) := by
  induction steps with
  | nil =>
    intro p _ h
    rcases h with h | ⟨s, hs, _⟩
    · exact h
    · cases hs
  | cons s rest ih =>
    intro p hl h
    refine ih _ (step_listening readFromData p s hl) ?_
    rcases h with h | ⟨t, ht, hsync⟩
    · exact Or.inl (step_coherent readFromData p s hl (Or.inl h))
    · rcases List.mem_cons.mp ht with e | ht
      · subst e
        exact Or.inl (step_coherent readFromData p t hl (Or.inr hsync))
      · exact Or.inr ⟨t, ht, hsync⟩

theorem create_listening : Listening create := by
  simp [Listening, create, AudioProcessorValueTreeState.addParameterListener,
    AudioProcessorValueTreeState.create]

theorem storeInRange_iff (ts : AudioProcessorValueTreeState) :
    StoreInRange ts ↔
      InDeclaredRange "rate" (ts.getRawParameterValue "rate")
      ∧ InDeclaredRange "depth" (ts.getRawParameterValue "depth")
      ∧ InDeclaredRange "delay" (ts.getRawParameterValue "delay")
      ∧ InDeclaredRange "feedback" (ts.getRawParameterValue "feedback")
      ∧ InDeclaredRange "mix" (ts.getRawParameterValue "mix") := by
  constructor
  · intro h
    exact ⟨h ⟨"rate", "Rate", 0, 100, 0⟩ (by simp [createParameterLayout]),
      h ⟨"depth", "Depth", 0, 1, 0⟩ (by simp [createParameterLayout]),
      h ⟨"delay", "Delay", 1, 100, 1⟩ (by simp [createParameterLayout]),
      h ⟨"feedback", "Feedback", -1, 1, 0⟩ (by simp [createParameterLayout]),
      h ⟨"mix", "Mix", 0, 1, 0⟩ (by simp [createParameterLayout])⟩
  · rintro ⟨h1, h2, h3, h4, h5⟩ q hq
    rcases (mem_createParameterLayout q).mp hq with h | h | h | h | h <;> subst h <;>
      assumption

theorem inDeclaredRange_feedback (v : Value) (h : InDeclaredRange "feedback" v) :
    |v| ≤ 1 := by
  obtain ⟨q, hq, hid, hlo, hhi⟩ := h
  rcases (mem_createParameterLayout q).mp hq with e | e | e | e | e <;> subst e <;>
    simp at hid
  exact abs_le.mpr ⟨hlo, hhi⟩

theorem cacheInRange_of_coherent (p : DSPModuleChorusAudioProcessor) (hc : Coherent p)
    (hs : StoreInRange p.treeState) : CacheInRange p := by
  obtain ⟨c1, c2, c3, c4, c5⟩ := hc
  obtain ⟨s1, s2, s3, s4, s5⟩ := (storeInRange_iff _).mp hs
  exact ⟨c1 ▸ s1, c2 ▸ s2, c3 ▸ s3, c4 ▸ s4, c5 ▸ s5⟩

theorem storeChange_cacheInRange (p : DSPModuleChorusAudioProcessor) (paramID : String)
    (newValue : Value) (hg : CacheInRange p)
    (hs : StoreInRange (p.storeChange paramID newValue).treeState) :
    CacheInRange (p.storeChange paramID newValue) := by
  unfold storeChange at hs ⊢
  cases hq : p.treeState.getParameter paramID with
  | none => exact hg
  | some q =>
    rw [hq] at hs
    simp only [storeValue_listeners] at hs ⊢
    by_cases hmem : paramID ∈ p.treeState.listeners
    · rw [if_pos hmem] at hs ⊢
      obtain ⟨g1, g2, g3, g4, g5⟩ := hg
      have hs2 := (storeInRange_iff _).mp hs
      simp only [parameterChanged_eq, storeValue_getRawParameterValue _ _ _ q hq] at hs2
      obtain ⟨s1, s2, s3, s4, s5⟩ := hs2
      simp only [CacheInRange, parameterChanged_eq]
      refine ⟨?_, ?_, ?_, ?_, ?_⟩
      · split_ifs with e
        · rw [if_pos e] at s1; exact s1
        · exact g1
      · split_ifs with e
        · rw [if_pos e] at s2; exact s2
        · exact g2
      · split_ifs with e
        · rw [if_pos e] at s3; exact s3
        · exact g3
      · split_ifs with e
        · rw [if_pos e] at s4; exact s4
        · exact g4
      · split_ifs with e
        · rw [if_pos e] at s5; exact s5
        · exact g5
    · rw [if_neg hmem]
      exact hg

theorem step_good (readFromData : MemoryBlock → ValueTree)
    (p : DSPModuleChorusAudioProcessor) (s : Step)
    (hg : CacheInRange p ∧ ∀ call ∈ p.chorus, call.InRange)
    (hs : StoreInRange (s.apply readFromData p).treeState) :
    CacheInRange (s.apply readFromData p)
      ∧ ∀ call ∈ (s.apply readFromData p).chorus, call.InRange := by
  obtain ⟨hc, hcalls⟩ := hg
  cases s with
  | storeChange paramID newValue =>
    refine ⟨storeChange_cacheInRange p paramID newValue hc hs, ?_⟩
    have hch : (p.storeChange paramID newValue).chorus = p.chorus := by
      unfold storeChange
      cases p.treeState.getParameter paramID with
      | none => rfl
      | some q =>
        simp only
        split_ifs
        · simp [parameterChanged_eq]
        · rfl
    simp only [Step.apply]
    rw [hch]
    exact hcalls
  | prepareToPlay sampleRate samplesPerBlock =>
    refine ⟨cacheInRange_of_coherent _ (prepareToPlay_coherent p _ _) hs, ?_⟩
    intro call hcall
    simp only [Step.apply, prepareToPlay_eq, List.mem_append, List.mem_cons,
      List.mem_singleton, List.mem_nil_iff, or_false] at hcall
    rcases hcall with h | h | h
    · exact hcalls call h
    · subst h; trivial
    · subst h; trivial
  | setStateInformation data =>
    cases hv : (readFromData data).isValid with
    | true =>
      refine ⟨cacheInRange_of_coherent _ (setStateInformation_coherent _ p data hv) hs, ?_⟩
      have hch : (p.setStateInformation readFromData data).chorus = p.chorus := by
        simp [setStateInformation, hv]
      simp only [Step.apply]
      rw [hch]
      exact hcalls
    | false =>
      simp only [Step.apply]
      rw [setStateInformation_invalid readFromData p data hv]
      exact ⟨hc, hcalls⟩
  | processBlock buffer =>
    obtain ⟨g1, g2, g3, g4, g5⟩ := hc
    refine ⟨by simpa [Step.apply, CacheInRange, processBlock] using
      (⟨g1, g2, g3, g4, g5⟩ : CacheInRange p), ?_⟩
    intro call hcall
    simp only [Step.apply, processBlock_chorus, List.mem_append, List.mem_cons,
      List.mem_singleton, List.mem_nil_iff, or_false] at hcall
    rcases hcall with h | h | h | h | h | h | h
    · exact hcalls call h
    all_goals subst h
    · exact g1
    · exact g2
    · exact g3
    · exact g4
    · exact g5
    · trivial

theorem runSteps_good (readFromData : MemoryBlock → ValueTree) (steps : List Step) :
    ∀ p : DSPModuleChorusAudioProcessor,
      (CacheInRange p ∧ ∀ call ∈ p.chorus, call.InRange) →
      (∀ k, StoreInRange (runSteps readFromData p (steps.take k)).treeState) →
      CacheInRange (runSteps readFromData p steps)
        ∧ ∀ call ∈ (runSteps readFromData p steps).chorus, call.InRange := by
  induction steps with
  | nil => intro p h _; exact h
  | cons s rest ih =>
    intro p hg hs
    refine ih _ (step_good readFromData p s hg ?_) ?_
    · simpa [runSteps] using hs 1
    · intro k
      simpa [runSteps] using hs (k + 1)

theorem create_good : CacheInRange create ∧ ∀ call ∈ create.chorus, call.InRange := by
  refine ⟨?_, ?_⟩
  · refine ⟨⟨⟨"rate", "Rate", 0, 100, 0⟩, ?_, rfl, ?_, ?_⟩,
      ⟨⟨"depth", "Depth", 0, 1, 0⟩, ?_, rfl, ?_, ?_⟩,
      ⟨⟨"delay", "Delay", 1, 100, 1⟩, ?_, rfl, ?_, ?_⟩,
      ⟨⟨"feedback", "Feedback", -1, 1, 0⟩, ?_, rfl, ?_, ?_⟩,
      ⟨⟨"mix", "Mix", 0, 1, 0⟩, ?_, rfl, ?_, ?_⟩⟩ <;>
      first
        | (simp [createParameterLayout]; done)
        | norm_num [create]
  · intro call hcall
    simp [create] at hcall

theorem setStateInformation_getStateInformation
    (readFromData : MemoryBlock → ValueTree) (writeToStream : ValueTree → MemoryBlock)
    (p : DSPModuleChorusAudioProcessor) (destData : MemoryBlock)
    (hcodec : readFromData (writeToStream p.treeState.state) = p.treeState.state)
    (hvalid : p.treeState.state.isValid = true) :
    (p.setStateInformation readFromData
        (p.getStateInformation writeToStream destData)).treeState = p.treeState
    ∧ Coherent (p.setStateInformation readFromData
        (p.getStateInformation writeToStream destData))
    ∧ (Coherent p →
        p.setStateInformation readFromData (p.getStateInformation writeToStream destData)
          = p) := by
  refine ⟨?_, ?_, ?_⟩
  · simp [setStateInformation, getStateInformation, hcodec, hvalid,
      AudioProcessorValueTreeState.assignState]
  · exact setStateInformation_coherent readFromData p _
      (by simp [getStateInformation, hcodec, hvalid])
  · rintro ⟨c1, c2, c3, c4, c5⟩
    simp only [setStateInformation, getStateInformation, hcodec, hvalid, if_true,
      AudioProcessorValueTreeState.assignState]
    rw [← c1, ← c2, ← c3, ← c4, ← c5]

/-! ## The claims -/

/-- C2, counterexample: on the constructed processor `parameterChanged ("rate", 200)`
leaves 200 in the cached rate, while 200 clamped to the declared range [0, 100] is 100. -/
theorem parameterChanged_not_clamped :
    cachedValue (create.parameterChanged "rate" 200) "rate" = some 200
    ∧ clampValue 0 100 200 = 100
    ∧ cachedValue (create.parameterChanged "rate" 200) "rate"
        ≠ some (clampValue 0 100 200) := by
  have h1 : cachedValue (create.parameterChanged "rate" 200) "rate" = some 200 := by
    simp [cachedValue, parameterChanged_eq]
  have h2 : clampValue 0 100 200 = 100 := by norm_num [clampValue]
  refine ⟨h1, h2, ?_⟩
  rw [h1, h2]
  norm_num

/-- C2, amended: for every declared parameter and every value `v`, in range or not, after
`parameterChanged (name, v)` the cached value of that parameter is `v` itself; it equals
`v` clamped to the declared range exactly when `v` lies in that range. -/
theorem parameterChanged_stores_value (p : DSPModuleChorusAudioProcessor)
    (q : AudioParameterFloat) (hq : q ∈ createParameterLayout) (v : Value) :
    cachedValue (p.parameterChanged q.paramID v) q.paramID = some v
    ∧ (cachedValue (p.parameterChanged q.paramID v) q.paramID
          = some (clampValue q.minValue q.maxValue v)
        ↔ q.minValue ≤ v ∧ v ≤ q.maxValue) := by
  have hv : cachedValue (p.parameterChanged q.paramID v) q.paramID = some v := by
    rcases (mem_createParameterLayout q).mp hq with h | h | h | h | h <;> subst h <;>
      simp [cachedValue, parameterChanged_eq]
  refine ⟨hv, ?_⟩
  rw [hv, Option.some_inj, eq_comm]
  exact clampValue_eq_self_iff _ _ _

/-- Witness of C2 amended: the depth parameter at the out-of-range value 3. -/
theorem parameterChanged_stores_value_witness :
    cachedValue (create.parameterChanged "depth" 3) "depth" = some 3 :=
  (parameterChanged_stores_value create ⟨"depth", "Depth", 0, 1, 0⟩
    (by simp [createParameterLayout]) 3).1

/-- C4: for every sample rate, block size and processor state, `prepareToPlay` leaves the
parameter store as it was, and afterwards each of the five cached values equals the
store's current value for its parameter. -/
theorem prepareToPlay_preserves_parameters (p : DSPModuleChorusAudioProcessor)
    (sampleRate : Value) (samplesPerBlock : Int) :
    (p.prepareToPlay sampleRate samplesPerBlock).treeState = p.treeState
    ∧ (p.prepareToPlay sampleRate samplesPerBlock).rate
        = (p.prepareToPlay sampleRate samplesPerBlock).treeState.getRawParameterValue "rate"
    ∧ (p.prepareToPlay sampleRate samplesPerBlock).depth
        = (p.prepareToPlay sampleRate samplesPerBlock).treeState.getRawParameterValue "depth"
    ∧ (p.prepareToPlay sampleRate samplesPerBlock).delay
        = (p.prepareToPlay sampleRate samplesPerBlock).treeState.getRawParameterValue "delay"
    ∧ (p.prepareToPlay sampleRate samplesPerBlock).feedback
        = (p.prepareToPlay sampleRate samplesPerBlock).treeState.getRawParameterValue
            "feedback"
    ∧ (p.prepareToPlay sampleRate samplesPerBlock).mix
        = (p.prepareToPlay sampleRate samplesPerBlock).treeState.getRawParameterValue "mix" := by
  simp [prepareToPlay]

/-- C5, counterexample: on a prepared processor, `prepareToPlay (0, -1)` (sample rate and
block size both non-positive) is carried out like any other call: the chorus receives
`prepare` with sample rate 0 and block size 4294967295, then `reset`, so the processor
does not remain as it was. -/
theorem prepareToPlay_accepts_bad_configuration :
    ((create.prepareToPlay 44100 512).prepareToPlay 0 (-1)).chorus
      = (create.prepareToPlay 44100 512).chorus
          ++ [ChorusCall.prepare ⟨0, 4294967295, none⟩, ChorusCall.reset]
    ∧ (create.prepareToPlay 44100 512).prepareToPlay 0 (-1)
        ≠ create.prepareToPlay 44100 512 := by
  have h : ((create.prepareToPlay 44100 512).prepareToPlay 0 (-1)).chorus
      = (create.prepareToPlay 44100 512).chorus
          ++ [ChorusCall.prepare ⟨0, 4294967295, none⟩, ChorusCall.reset] := by
    simp [prepareToPlay, Chorus.prepare, Chorus.reset, create]
  refine ⟨h, ?_⟩
  intro heq
  rw [heq] at h
  simp at h

/-- C5, amended: `prepareToPlay` does not validate its arguments and has no failure
result. For every sample rate and block size, positive or not, it leaves the store as it
was, reloads the five cached values from the store, and calls `chorus.prepare` with the
given sample rate and the block size converted to unsigned 32 bits, then
`chorus.reset`. -/
theorem prepareToPlay_total (p : DSPModuleChorusAudioProcessor) (sampleRate : Value)
    (samplesPerBlock : Int) :
    p.prepareToPlay sampleRate samplesPerBlock
      = { p with
          rate := p.treeState.getRawParameterValue "rate"
          depth := p.treeState.getRawParameterValue "depth"
          delay := p.treeState.getRawParameterValue "delay"
          feedback := p.treeState.getRawParameterValue "feedback"
          mix := p.treeState.getRawParameterValue "mix"
          chorus := p.chorus ++
            [ChorusCall.prepare ⟨sampleRate, (samplesPerBlock % 2 ^ 32).toNat, none⟩,
             ChorusCall.reset] } := by
  simp [prepareToPlay, Chorus.prepare, Chorus.reset]

/-- C6: for every byte buffer that does not decode to a valid tree, `setStateInformation`
leaves the processor as it was: the parameter store and the five cached values are
unmodified. -/
theorem setStateInformation_atomic (readFromData : MemoryBlock → ValueTree)
    (p : DSPModuleChorusAudioProcessor) (data : MemoryBlock)
    (h : (readFromData data).isValid = false) :
    p.setStateInformation readFromData data = p
    ∧ (p.setStateInformation readFromData data).treeState = p.treeState
    ∧ (p.setStateInformation readFromData data).rate = p.rate
    ∧ (p.setStateInformation readFromData data).depth = p.depth
    ∧ (p.setStateInformation readFromData data).delay = p.delay
    ∧ (p.setStateInformation readFromData data).feedback = p.feedback
    ∧ (p.setStateInformation readFromData data).mix = p.mix := by
  rw [setStateInformation_invalid readFromData p data h]
  exact ⟨rfl, rfl, rfl, rfl, rfl, rfl, rfl⟩

/-- Witness of C6: a prepared processor given three bytes that decode to the invalid
tree. -/
theorem setStateInformation_atomic_witness :
    (decodeAs invalidTree [1, 2, 3]).isValid = false
    ∧ (create.prepareToPlay 48000 256).setStateInformation (decodeAs invalidTree) [1, 2, 3]
        = create.prepareToPlay 48000 256 :=
  ⟨rfl, (setStateInformation_atomic (decodeAs invalidTree) (create.prepareToPlay 48000 256)
    [1, 2, 3] rfl).1⟩

/-- C7: for every parameter ID and value, `parameterChanged` leaves unchanged the cached
value of every name other than the ID; for an ID that is none of rate, depth, delay,
feedback, mix it leaves the whole processor unchanged; and it never changes the chorus
engine state (nor the store). -/
theorem parameterChanged_frame (p : DSPModuleChorusAudioProcessor) (parameterID : String)
    (newValue : Value) :
    (∀ name, name ≠ parameterID →
        cachedValue (p.parameterChanged parameterID newValue) name = cachedValue p name)
    ∧ (parameterID ∉ ["rate", "depth", "delay", "feedback", "mix"] →
        p.parameterChanged parameterID newValue = p)
    ∧ (p.parameterChanged parameterID newValue).chorus = p.chorus
    ∧ (p.parameterChanged parameterID newValue).treeState = p.treeState := by
  refine ⟨?_, ?_, ?_, ?_⟩
  · intro name hne
    simp only [cachedValue, parameterChanged_eq]
    by_cases h1 : name = "rate"
    · rw [if_pos h1, if_pos h1, if_neg (fun e => hne (h1.trans e.symm))]
    rw [if_neg h1, if_neg h1]
    by_cases h2 : name = "depth"
    · rw [if_pos h2, if_pos h2, if_neg (fun e => hne (h2.trans e.symm))]
    rw [if_neg h2, if_neg h2]
    by_cases h3 : name = "delay"
    · rw [if_pos h3, if_pos h3, if_neg (fun e => hne (h3.trans e.symm))]
    rw [if_neg h3, if_neg h3]
    by_cases h4 : name = "feedback"
    · rw [if_pos h4, if_pos h4, if_neg (fun e => hne (h4.trans e.symm))]
    rw [if_neg h4, if_neg h4]
    by_cases h5 : name = "mix"
    · rw [if_pos h5, if_pos h5, if_neg (fun e => hne (h5.trans e.symm))]
    rw [if_neg h5, if_neg h5]
  · intro hnot
    simp only [List.mem_cons, List.mem_singleton, List.mem_nil_iff, or_false, not_or] at hnot
    obtain ⟨n1, n2, n3, n4, n5⟩ := hnot
    rw [parameterChanged_eq, if_neg n1, if_neg n2, if_neg n3, if_neg n4, if_neg n5]
  · rw [parameterChanged_eq]
  · rw [parameterChanged_eq]

/-- Witness of C7: changing depth leaves the cached mix alone, and an unknown ID leaves
the processor alone. -/
theorem parameterChanged_frame_witness :
    cachedValue (create.parameterChanged "depth" 0) "mix" = cachedValue create "mix"
    ∧ create.parameterChanged "gain" 5 = create :=
  ⟨(parameterChanged_frame create "depth" 0).1 "mix" (by decide),
   (parameterChanged_frame create "gain" 5).2.1 (by decide)⟩

/-- C8, the code at the failing input: the constructed processor caches 1 for all five
parameters, `processBlock` hands those to the chorus (mix 1, fully wet), while the
defaults declared by `createParameterLayout`, which the store holds, are 0, 0, 1, 0, 0. -/
theorem create_cached_values :
    (create.rate, create.depth, create.delay, create.feedback, create.mix)
      = (1, 1, 1, 1, 1)
    ∧ Chorus.settings (create.processBlock [[0], [0]]).chorus
        = ⟨some 1, some 1, some 1, some 1, some 1⟩
    ∧ createParameterLayout.map (fun q => q.defaultValue) = [0, 0, 1, 0, 0]
    ∧ (create.treeState.getRawParameterValue "rate",
        create.treeState.getRawParameterValue "depth",
        create.treeState.getRawParameterValue "delay",
        create.treeState.getRawParameterValue "feedback",
        create.treeState.getRawParameterValue "mix") = (0, 0, 1, 0, 0)
    ∧ cachedValue create "mix" ≠ some 0 := by
  refine ⟨rfl, ?_, rfl, ?_, ?_⟩
  · rw [processBlock_chorus]
    simp [Chorus.settings, List.foldl_append, ChorusSettings.after, create]
  · simp [create, AudioProcessorValueTreeState.getRawParameterValue,
      AudioProcessorValueTreeState.create, AudioProcessorValueTreeState.addParameterListener,
      createParameterLayout]
  · simp [cachedValue, create]

/-- C9: for every processor state and buffer, the last call `processBlock` makes on the
chorus is `process`; the calls before it end with the five setters, each given the cached
value of its own parameter, so the settings in force when the block is processed are
rate = cached rate, depth = cached depth, centre delay = cached delay, feedback = cached
feedback, mix = cached mix; and `processBlock` leaves the five cached values (and the
store) unchanged. -/
theorem processBlock_snapshot (p : DSPModuleChorusAudioProcessor) (buffer : AudioBuffer) :
    (p.processBlock buffer).chorus.getLast?
      = some (ChorusCall.process (clearUnusedOutputs p buffer))
    ∧ (p.processBlock buffer).chorus.dropLast
      = p.chorus ++ [ChorusCall.setRate p.rate, ChorusCall.setDepth p.depth,
          ChorusCall.setCentreDelay p.delay, ChorusCall.setFeedback p.feedback,
          ChorusCall.setMix p.mix]
    ∧ Chorus.settings (p.processBlock buffer).chorus.dropLast
      = ⟨some p.rate, some p.depth, some p.delay, some p.feedback, some p.mix⟩
    ∧ (p.processBlock buffer).rate = p.rate
    ∧ (p.processBlock buffer).depth = p.depth
    ∧ (p.processBlock buffer).delay = p.delay
    ∧ (p.processBlock buffer).feedback = p.feedback
    ∧ (p.processBlock buffer).mix = p.mix
    ∧ (p.processBlock buffer).treeState = p.treeState := by
  have hd : (p.processBlock buffer).chorus.dropLast
      = p.chorus ++ [ChorusCall.setRate p.rate, ChorusCall.setDepth p.depth,
          ChorusCall.setCentreDelay p.delay, ChorusCall.setFeedback p.feedback,
          ChorusCall.setMix p.mix] := by
    rw [processBlock_chorus]
    have e : p.chorus ++ [ChorusCall.setRate p.rate, ChorusCall.setDepth p.depth,
          ChorusCall.setCentreDelay p.delay, ChorusCall.setFeedback p.feedback,
          ChorusCall.setMix p.mix, ChorusCall.process (clearUnusedOutputs p buffer)]
        = (p.chorus ++ [ChorusCall.setRate p.rate, ChorusCall.setDepth p.depth,
          ChorusCall.setCentreDelay p.delay, ChorusCall.setFeedback p.feedback,
          ChorusCall.setMix p.mix]) ++ [ChorusCall.process (clearUnusedOutputs p buffer)] := by
      simp
    rw [e, List.dropLast_concat]
  refine ⟨?_, hd, ?_, rfl, rfl, rfl, rfl, rfl, rfl⟩
  · rw [processBlock_chorus]
    simp [List.getLast?_append]
  · rw [hd, settings_append_setters]

/-- C3, the code at the failing input: on the constructed processor, with bytes that
decode back to the store's own valid tree, `setStateInformation` of what
`getStateInformation` produced leaves the store as it was but changes the cached values
from 1, 1, 1, 1, 1 to 0, 0, 1, 0, 0. -/
theorem roundTrip_changes_fresh_cache :
    decodeAs create.treeState.state (create.getStateInformation encodeEmpty [])
      = create.treeState.state
    ∧ create.treeState.state.isValid = true
    ∧ (create.setStateInformation (decodeAs create.treeState.state)
        (create.getStateInformation encodeEmpty [])).treeState = create.treeState
    ∧ (create.rate, create.depth, create.delay, create.feedback, create.mix)
        = (1, 1, 1, 1, 1)
    ∧ ((create.setStateInformation (decodeAs create.treeState.state)
          (create.getStateInformation encodeEmpty [])).rate,
        (create.setStateInformation (decodeAs create.treeState.state)
          (create.getStateInformation encodeEmpty [])).depth,
        (create.setStateInformation (decodeAs create.treeState.state)
          (create.getStateInformation encodeEmpty [])).delay,
        (create.setStateInformation (decodeAs create.treeState.state)
          (create.getStateInformation encodeEmpty [])).feedback,
        (create.setStateInformation (decodeAs create.treeState.state)
          (create.getStateInformation encodeEmpty [])).mix) = (0, 0, 1, 0, 0)
    ∧ create.setStateInformation (decodeAs create.treeState.state)
        (create.getStateInformation encodeEmpty []) ≠ create := by
  have hr : (create.setStateInformation (decodeAs create.treeState.state)
      (create.getStateInformation encodeEmpty [])).rate = 0 := by
    simp [setStateInformation, decodeAs, create,
      AudioProcessorValueTreeState.getRawParameterValue,
      AudioProcessorValueTreeState.create, AudioProcessorValueTreeState.addParameterListener,
      AudioProcessorValueTreeState.assignState, createParameterLayout]
  refine ⟨rfl, rfl, ?_, rfl, ?_, ?_⟩
  · simp [setStateInformation, decodeAs, create,
      AudioProcessorValueTreeState.create, AudioProcessorValueTreeState.addParameterListener,
      AudioProcessorValueTreeState.assignState]
  · simp [setStateInformation, decodeAs, create,
      AudioProcessorValueTreeState.getRawParameterValue,
      AudioProcessorValueTreeState.create, AudioProcessorValueTreeState.addParameterListener,
      AudioProcessorValueTreeState.assignState, createParameterLayout]
  · intro heq
    rw [heq] at hr
    simp [create] at hr

/-- C10: starting from the constructed processor and taking any sequence of steps (a store
change notified to `parameterChanged`, `prepareToPlay`, `setStateInformation` with valid
or invalid data, `processBlock`): if the sequence contains a `prepareToPlay` or a
`setStateInformation` whose data is valid, then in the state reached each of the five
cached values equals the store's current value for its parameter; and if the store holds
in-range values in every state passed through, every value a setter of the chorus has
been given lies in the declared range of its parameter, the feedback in particular
having magnitude at most 1. -/
theorem cache_store_coherence (readFromData : MemoryBlock → ValueTree)
    (steps : List Step) :
    ((∃ s ∈ steps, s.syncs readFromData = true) →
        Coherent (runSteps readFromData create steps))
    ∧ ((∀ k, StoreInRange (runSteps readFromData create (steps.take k)).treeState) →
        (∀ call ∈ (runSteps readFromData create steps).chorus, call.InRange)
        ∧ ∀ v, ChorusCall.setFeedback v ∈ (runSteps readFromData create steps).chorus →
            |v| ≤ 1) := by
  refine ⟨?_, ?_⟩
  · intro h
    exact runSteps_coherent readFromData steps create create_listening (Or.inr h)
  · intro h
    have hg := (runSteps_good readFromData steps create create_good h).2
    exact ⟨hg, fun v hv => inDeclaredRange_feedback v (hg _ hv)⟩

/-- Witness of C10: the store sets feedback to -1, the processor is prepared, a block is
processed, then undecodable state data arrives. -/
theorem cache_store_coherence_witness :
    Coherent (runSteps (decodeAs invalidTree) create
      [Step.storeChange "feedback" (-1), Step.prepareToPlay 48000 512,
       Step.processBlock [[0], [0]], Step.setStateInformation [7]])
    ∧ ∀ v, ChorusCall.setFeedback v ∈ (runSteps (decodeAs invalidTree) create
        [Step.storeChange "feedback" (-1), Step.prepareToPlay 48000 512,
         Step.processBlock [[0], [0]], Step.setStateInformation [7]]).chorus → |v| ≤ 1 :=
  ⟨(cache_store_coherence (decodeAs invalidTree)
      [Step.storeChange "feedback" (-1), Step.prepareToPlay 48000 512,
       Step.processBlock [[0], [0]], Step.setStateInformation [7]]).1
      ⟨Step.prepareToPlay 48000 512, by simp, rfl⟩,
   ((cache_store_coherence (decodeAs invalidTree)
      [Step.storeChange "feedback" (-1), Step.prepareToPlay 48000 512,
       Step.processBlock [[0], [0]], Step.setStateInformation [7]]).2
      (by
        intro k
        rw [storeInRange_iff]
        rcases k with _ | _ | _ | _ | k <;>
          simp [runSteps, Step.apply, storeChange, parameterChanged_eq, prepareToPlay,
            processBlock, setStateInformation, decodeAs, invalidTree, create,
            AudioProcessorValueTreeState.getParameter,
            AudioProcessorValueTreeState.storeValue,
            AudioProcessorValueTreeState.getRawParameterValue,
            AudioProcessorValueTreeState.create,
            AudioProcessorValueTreeState.addParameterListener,
            createParameterLayout, InDeclaredRange, Function.update_apply])).2⟩

end DSPModuleChorus
